import Mathlib

/-!
Shallow embedding of the DzOsuINDev route handlers
(`src/routes/compare.js` and `src/routes/search.js`).

Modelling conventions:
* JS numbers are modelled as `ℚ` (all arithmetic in the routes is exact on
  the values of interest; no float rounding is relied upon by any claim).
* A nullable / possibly-absent JS object field is an entry that may be
  missing from an association list; `a[k]` is `List.lookup`, and the JS
  truthiness fallback `x || d` (null, undefined and 0 are falsy) is `jsOr`.
* Database rows are Lean structures; a table is a `List` of rows.
  `getRow` on a `WHERE username ILIKE '%u%'` query is modelled as
  `List.find?` with `ilikeMatch`: full SQL LIKE pattern matching of the
  `%`-wrapped caller string, so a `%` or `_` inside the supplied string
  acts as a wildcard exactly as it does in the program.  Lowercasing is
  `Char.toLower` per character, the ASCII case folding relevant to the
  stored usernames.
* An HTTP response is `Resp α`: `ok` for a JSON success payload,
  `err status msg` for `res.status(status).json({success:false,error:msg})`.
-/

/-- JS `x || d` for a possibly-null/undefined numeric field:
`null`, `undefined` and `0` are falsy and give `d`. -/
def jsOr (v : Option ℚ) (d : ℚ) : ℚ :=
  match v with
  | none => d
  | some x => if x = 0 then d else x

/-- Lower-cased character list of a string (ASCII case folding,
as performed by `ILIKE` on the ASCII usernames stored here). -/
def lcs (s : String) : List Char := s.data.map Char.toLower

/-- SQL `LIKE` pattern matching on character lists: `%` matches any
(possibly empty) sequence, `_` matches exactly one character, every other
pattern character matches itself.  The first argument is fuel; every
recursive call shrinks `pattern.length + text.length`, so any fuel of at
least `pattern.length + text.length + 1` computes the LIKE relation (the
fuel only makes the recursion structural). -/
def likeM : Nat → List Char → List Char → Bool
  | 0, _, _ => false
  | _ + 1, [], [] => true
  | _ + 1, [], _ :: _ => false
  | fuel + 1, c :: ps, [] => if c = '%' then likeM fuel ps [] else false
  | fuel + 1, c :: ps, d :: ts =>
    if c = '%' then likeM fuel ps (d :: ts) || likeM fuel (c :: ps) ts
    else (if c = '_' then true else c == d) && likeM fuel ps ts

/-- `stored ILIKE '%' || pat || '%'` exactly as the routes build it: the
caller-supplied string is spliced into the pattern, so any `%` or `_` it
contains acts as a wildcard, and matching is case-insensitive.  The fuel
`p.length + t.length + 1` is adequate (see `likeM`). -/
def ilikeMatch (stored pat : String) : Bool :=
  likeM ((('%' :: lcs pat) ++ ['%']).length + (lcs stored).length + 1)
    (('%' :: lcs pat) ++ ['%']) (lcs stored)

/-- A `player_stats` row.  `username` is the stored username; every other
column that the routes read dynamically (`player[metric]`, `player.total_pp`,
...) is kept in an association list, an absent key modelling SQL `NULL`
(which surfaces as a falsy value in JS). -/
structure Player where
  username : String
  stats : List (String × ℚ)
deriving DecidableEq

/-- JS property access `player[m]` on the columns of a `player_stats` row. -/
def Player.metric (p : Player) (m : String) : Option ℚ := p.stats.lookup m

/-- `getRow('SELECT * FROM player_stats WHERE username ILIKE $1', ['%u%'])`:
the first row whose stored username matches the ILIKE pattern `%u%` —
case-insensitive substring containment when `u` is free of the wildcards
`%` and `_` (`compare.js` lines 21-24 and 225-228). -/
def resolvePlayer (db : List Player) (u : String) : Option Player :=
  db.find? (fun p => ilikeMatch p.username u)

/-- One entry of `statComparison` in the two-player compare route
(`compare.js` lines 82-113): both values and their difference. -/
structure StatCmp where
  p1 : ℚ
  p2 : ℚ
  diff : ℚ
deriving DecidableEq

/-- A higher-is-better `statComparison` entry (`compare.js` lines 83-107):
`{ player1: a.col || 0, player2: b.col || 0, difference: (a.col||0)-(b.col||0) }`. -/
def statEntry (a b : Player) (col : String) : StatCmp :=
  { p1 := jsOr (a.metric col) 0
    p2 := jsOr (b.metric col) 0
    diff := jsOr (a.metric col) 0 - jsOr (b.metric col) 0 }

/-- The `countryRank` entry (`compare.js` lines 108-112): missing ranks become
`999999` and the difference is flipped (`player2 - player1`, "Lower is better"). -/
def countryRankEntry (a b : Player) : StatCmp :=
  { p1 := jsOr (a.metric "country_rank") 999999
    p2 := jsOr (b.metric "country_rank") 999999
    diff := jsOr (b.metric "country_rank") 999999 - jsOr (a.metric "country_rank") 999999 }

/-- The `statComparison` object of the two-player compare route
(`compare.js` lines 82-114). -/
structure StatComparison where
  totalPP : StatCmp
  weightedPP : StatCmp
  accuracy : StatCmp
  firstPlaces : StatCmp
  totalScores : StatCmp
  countryRank : StatCmp
deriving DecidableEq

def statComparison (a b : Player) : StatComparison :=
  { totalPP := statEntry a b "total_pp"
    weightedPP := statEntry a b "weighted_pp"
    accuracy := statEntry a b "accuracy_avg"
    firstPlaces := statEntry a b "first_places"
    totalScores := statEntry a b "total_scores"
    countryRank := countryRankEntry a b }

/-- A `skill_tracking` row. -/
structure SkillRow where
  username : String
  skill_type : String
  skill_value : ℚ
deriving DecidableEq

/-- The grouped `AVG(skill_value)` query of `compare.js` lines 34-45,
restricted to one skill type: `none` when the player has no rows of that
type (no group is produced), otherwise the average. -/
def skillAvg (rows : List SkillRow) (u t : String) : Option ℚ :=
  let vs := (rows.filter (fun r => ilikeMatch r.username u && r.skill_type == t)).map
    (fun r => r.skill_value)
  if vs.isEmpty then none else some (vs.sum / vs.length)

/-- One entry of `skillComparison` (`compare.js` lines 61-70):
`skill1 ? parseFloat(skill1.avg_skill) : 0` is `Option.getD 0` on the group. -/
def skillEntry (rows : List SkillRow) (u1 u2 t : String) : StatCmp :=
  { p1 := (skillAvg rows u1 t).getD 0
    p2 := (skillAvg rows u2 t).getD 0
    diff := (skillAvg rows u1 t).getD 0 - (skillAvg rows u2 t).getD 0 }

/-- The five skill types iterated by the route (`compare.js` line 61). -/
def skillTypes : List String := ["aim", "speed", "accuracy", "reading", "consistency"]

/-- The compare payload built on a cache miss (`compare.js` lines 72-114).
`topScores` (a per-player projection of `algeria_top50`, unused by every
claim) is not modelled. -/
structure CompareData where
  player1 : Player
  player2 : Player
  skills : List (String × StatCmp)
  stats : StatComparison
deriving DecidableEq

def freshCompareData (rows : List SkillRow) (u1 u2 : String) (p1 p2 : Player) : CompareData :=
  { player1 := p1
    player2 := p2
    skills := skillTypes.map (fun t => (t, skillEntry rows u1 u2 t))
    stats := statComparison p1 p2 }

/-- Outcome of `await cacheService.get(cacheKey)` as observed by the route:
a truthy cached value, a falsy result (miss), or a thrown error. -/
inductive CacheGet where
  | hit (d : CompareData)
  | miss
  | raise
deriving DecidableEq

/-- An HTTP response: `ok` is `res.json({success:true, data})`,
`err s m` is `res.status(s).json({success:false, error:m})`. -/
inductive Resp (α : Type) where
  | ok (data : α)
  | err (status : Nat) (msg : String)
deriving DecidableEq

/-- The `GET /:username1/:username2` compare handler (`compare.js` lines 13-125).
The whole body runs inside a single `try`; any raise — including one from
`cacheService.get` (before the fresh computation) or `cacheService.set`
(line 117, after the fresh computation) — reaches the `catch` and produces
`500 Internal server error`.  `setRaises` says whether the `set` call raises. -/
def comparePlayers (db : List Player) (rows : List SkillRow) (g : CacheGet)
    (setRaises : Bool) (u1 u2 : String) : Resp CompareData :=
  match g with
  | .raise => .err 500 "Internal server error"
  | .hit d => .ok d
  | .miss =>
    match resolvePlayer db u1, resolvePlayer db u2 with
    | some p1, some p2 =>
      if setRaises then .err 500 "Internal server error"
      else .ok (freshCompareData rows u1 u2 p1 p2)
    | _, _ => .err 404 "One or both players not found"

/-- An `algeria_top50` row as read by the beatmap compare route;
`rank`, `score`, `accuracy` are used bare, `pp` and `max_combo`
through `|| 0`. -/
structure Score where
  username : String
  rank : ℚ
  score : ℚ
  accuracy : ℚ
  pp : Option ℚ
  max_combo : Option ℚ
deriving DecidableEq

/-- `comparison.differences` of the beatmap compare route
(`compare.js` lines 186-192). -/
structure BeatmapDiffs where
  rank : ℚ
  score : ℚ
  accuracy : ℚ
  pp : ℚ
  maxCombo : ℚ
deriving DecidableEq

def beatmapDiffs (s1 s2 : Score) : BeatmapDiffs :=
  { rank := s1.rank - s2.rank
    score := s1.score - s2.score
    accuracy := s1.accuracy - s2.accuracy
    pp := jsOr s1.pp 0 - jsOr s2.pp 0
    maxCombo := jsOr s1.max_combo 0 - jsOr s2.max_combo 0 }

/-- `comparison.winner` when both players have a score
(`compare.js` lines 176-184): lower rank wins, equal ranks tie. -/
def beatmapWinner (s1 s2 : Score) (u1 u2 : String) : String :=
  if s1.rank < s2.rank then u1
  else if s2.rank < s1.rank then u2
  else "tie"

/-- `player[metric] || 0`, the value used everywhere in the multi-player
comparison (`compare.js` lines 252-253, 259, 264-266): missing or zero
values become `0` for every metric. -/
def metricVal (p : Player) (m : String) : ℚ := jsOr (p.metric m) 0

/-- Insert into a sorted list, keeping `a` before the first element `b`
with `le a b`. -/
def insertBy (le : Player → Player → Bool) (a : Player) : List Player → List Player
  | [] => [a]
  | b :: l => if le a b then a :: b :: l else b :: insertBy le a l

/-- Insertion sort; a stable comparison sort, modelling the (stable)
`Array.prototype.sort` call of `compare.js` line 251. -/
def sortedBy (le : Player → Player → Bool) : List Player → List Player
  | [] => []
  | a :: l => insertBy le a (sortedBy le l)

/-- The comparator of `compare.js` lines 251-255 as an ordering test:
the JS comparator returns `aVal - bVal` for `avg_rank` ("Lower avg_rank is
better") and `bVal - aVal` otherwise, and `a` is placed no later than `b`
exactly when the returned number is `≤ 0`. -/
def multiLe (m : String) (a b : Player) : Bool :=
  if m = "avg_rank" then metricVal a m ≤ metricVal b m
  else metricVal b m ≤ metricVal a m

/-- `[...players].sort(comparator)` for one metric. -/
def sortedFor (m : String) (ps : List Player) : List Player :=
  sortedBy (multiLe m) ps

/-- One entry of `comparison.rankings[metric]` (`compare.js` lines 257-261). -/
structure RankEntry where
  username : String
  value : ℚ
  rank : Nat
deriving DecidableEq

/-- `comparison.rankings[metric]`: the sorted players with `rank = index + 1`. -/
def rankingsFor (m : String) (ps : List Player) : List RankEntry :=
  (sortedFor m ps).enum.map
    (fun x => { username := x.2.username, value := metricVal x.2 m, rank := x.1 + 1 })

/-- `comparison.metrics[metric]` (`compare.js` lines 263-267). -/
structure MetricStats where
  best : ℚ
  worst : ℚ
  average : ℚ
deriving DecidableEq

/-- `best`/`worst` read the first/last sorted player (`|| 0` applied);
`average` is the sum of the (zero-substituted) raw values over the
unsorted `players` list, divided by its length. -/
def metricStatsFor (m : String) (ps : List Player) : MetricStats :=
  { best := match sortedFor m ps with
      | [] => 0
      | p :: _ => metricVal p m
    worst := match (sortedFor m ps).getLast? with
      | none => 0
      | some p => metricVal p m
    average := (ps.map (fun p => metricVal p m)).sum / (ps.length : ℚ) }

/-- The `comparison` payload of `POST /multiple` (`compare.js` lines 242-268). -/
structure MultiData where
  players : List Player
  metricStats : List (String × MetricStats)
  rankings : List (String × List RankEntry)
deriving DecidableEq

def mkMultiData (found : List Player) (metrics : List String) : MultiData :=
  { players := found
    metricStats := metrics.map (fun m => (m, metricStatsFor m found))
    rankings := metrics.map (fun m => (m, rankingsFor m found)) }

/-- The `POST /multiple` handler (`compare.js` lines 211-278).
Returns the response together with the number of `getRow` database queries
issued (one per requested username, issued only after the bound check).
The count check `usernames.length < 2 || usernames.length > 5` runs before
the fetch loop; a username whose `getRow` returns no row is skipped
(lines 230-232), and only when fewer than 2 players were found does the
handler return 404. -/
def multipleHandler (db : List Player) (usernames : List String) (metrics : List String) :
    Resp MultiData × Nat :=
  if usernames.length < 2 ∨ 5 < usernames.length then
    (.err 400 "Please provide between 2 and 5 usernames", 0)
  else
    let found := usernames.filterMap (resolvePlayer db)
    if found.length < 2 then
      (.err 404 "At least 2 valid players required", usernames.length)
    else
      (.ok (mkMultiData found metrics), usernames.length)

/-- A piece of query text emitted by the advanced-search builder
(`search.js` lines 248-355): either a fixed literal written in the source,
or the decimal rendering of the interpolated `++paramCount` /
`paramCount`.  In the JS source these interpolations are written
`ILIKE ${++paramCount}`: the template-literal syntax consumes the
dollar sign, so the emitted text contains only the decimal digits of the
counter, not a `$N` parameter placeholder. -/
inductive Chunk where
  | lit (s : String)
  | idx (n : Nat)
deriving DecidableEq

def renderChunk : Chunk → String
  | .lit s => s
  | .idx n => Nat.repr n

/-- The query text obtained by concatenating the emitted pieces in order. -/
def renderChunks (cs : List Chunk) : String := String.join (cs.map renderChunk)

/-- A value pushed onto the bound-parameter array. -/
inductive Param where
  | pstr (s : String)
  | pnum (q : ℚ)
  | pint (n : Int)
  | plist (l : List String)
deriving DecidableEq

/-- Builder state: emitted text pieces, pushed parameters, and `paramCount`. -/
structure QB where
  chunks : List Chunk
  params : List Param
  count : Nat
deriving DecidableEq

/-- One conditional filter step: `query += pre + (++paramCount); params.push(p)`. -/
def QB.add (qb : QB) (pre : String) (p : Param) : QB :=
  { chunks := qb.chunks ++ [.lit pre, .idx (qb.count + 1)]
    params := qb.params ++ [p]
    count := qb.count + 1 }

/-- The base text of the player query (`search.js` lines 249-255),
with the source's insignificant whitespace collapsed. -/
def playerBase : String :=
  "SELECT username, user_id, weighted_pp, accuracy_avg, first_places, total_scores, avatar_url, country_rank FROM player_stats WHERE is_active = true"

/-- The conditional part of the `POST /advanced` player query
(`search.js` lines 256-282): each of the five optional filters appends its
clause and pushes its value exactly when its presence test holds.  JS
truthiness of `searchQuery` (a string, default `''`) is non-emptiness. -/
def buildPlayerQB (q : String) (minPP maxPP minAcc maxAcc : ℚ) : QB :=
  let qb : QB := { chunks := [.lit playerBase], params := [], count := 0 }
  let qb := if q ≠ "" then qb.add " AND username ILIKE " (.pstr ("%" ++ q ++ "%")) else qb
  let qb := if 0 < minPP then qb.add " AND weighted_pp >= " (.pnum minPP) else qb
  let qb := if maxPP < 10000 then qb.add " AND weighted_pp <= " (.pnum maxPP) else qb
  let qb := if 0 < minAcc then qb.add " AND accuracy_avg >= " (.pnum minAcc) else qb
  let qb := if maxAcc < 1 then qb.add " AND accuracy_avg <= " (.pnum maxAcc) else qb
  qb

/-- The finished player query (`search.js` lines 284-285): the pagination
clause interpolates two further counter values and `parseInt(limit)`,
`parseInt(offset)` are pushed last. -/
def buildPlayerQuery (q : String) (minPP maxPP minAcc maxAcc : ℚ)
    (limit offset : Int) : String × List Param :=
  let qb := buildPlayerQB q minPP maxPP minAcc maxAcc
  (renderChunks (qb.chunks ++
     [.lit " ORDER BY weighted_pp DESC LIMIT ", .idx (qb.count + 1),
      .lit " OFFSET ", .idx (qb.count + 2)]),
   qb.params ++ [.pint limit, .pint offset])

/-- The number of present optional filters of the player query. -/
def playerFilterCount (q : String) (minPP maxPP minAcc maxAcc : ℚ) : Nat :=
  (if q ≠ "" then 1 else 0) + (if 0 < minPP then 1 else 0) +
  (if maxPP < 10000 then 1 else 0) + (if 0 < minAcc then 1 else 0) +
  (if maxAcc < 1 then 1 else 0)

/-- The base text of the score query (`search.js` lines 291-297). -/
def scoreBase : String :=
  "SELECT beatmap_id, beatmap_title, artist, difficulty_name, username, rank, score, accuracy, mods, pp, difficulty_rating, last_updated FROM algeria_top50 WHERE 1=1"

/-- The search-term clause of the score query (`search.js` line 302)
re-uses one counter value at three places but pushes one parameter. -/
def QB.addSearch (qb : QB) (q : String) : QB :=
  { chunks := qb.chunks ++
      [.lit " AND (beatmap_title ILIKE ", .idx (qb.count + 1),
       .lit " OR artist ILIKE ", .idx (qb.count + 1),
       .lit " OR username ILIKE ", .idx (qb.count + 1), .lit ")"]
    params := qb.params ++ [.pstr ("%" ++ q ++ "%")]
    count := qb.count + 1 }

/-- The mods clause of the score query (`search.js` line 337):
`mods = ANY(${++paramCount})` closes a parenthesis after the counter. -/
def QB.addMods (qb : QB) (mods : List String) : QB :=
  { chunks := qb.chunks ++
      [.lit " AND mods = ANY(", .idx (qb.count + 1), .lit ")"]
    params := qb.params ++ [.plist mods]
    count := qb.count + 1 }

/-- The conditional part of the `POST /advanced` score query
(`search.js` lines 298-349).  The raw `dateRange.start`/`.end` request
fields are modelled as numeric epoch-millisecond values (`Option Int`,
`none` for an absent field): for a number `n`, the source's truthiness
test `if (dateRange.start)` is exactly `n ≠ 0`, and the conversion
`new Date(n).getTime()` it then pushes is the identity, so guard and
bound value below coincide with the source on numeric date inputs
(string-valued date inputs are outside this model). -/
def buildScoreQB (q : String) (minPP maxPP minAcc maxAcc minDiff maxDiff : ℚ)
    (mods : List String) (dateStart dateEnd : Option Int) : QB :=
  let qb : QB := { chunks := [.lit scoreBase], params := [], count := 0 }
  let qb := if q ≠ "" then qb.addSearch q else qb
  let qb := if 0 < minPP then qb.add " AND pp >= " (.pnum minPP) else qb
  let qb := if maxPP < 10000 then qb.add " AND pp <= " (.pnum maxPP) else qb
  let qb := if 0 < minAcc then qb.add " AND accuracy >= " (.pnum minAcc) else qb
  let qb := if maxAcc < 1 then qb.add " AND accuracy <= " (.pnum maxAcc) else qb
  let qb := if 0 < minDiff then qb.add " AND difficulty_rating >= " (.pnum minDiff) else qb
  let qb := if maxDiff < 10 then qb.add " AND difficulty_rating <= " (.pnum maxDiff) else qb
  let qb := if mods ≠ [] then qb.addMods mods else qb
  let qb := match dateStart with
    | some v => if v ≠ 0 then qb.add " AND last_updated >= " (.pint v) else qb
    | none => qb
  let qb := match dateEnd with
    | some v => if v ≠ 0 then qb.add " AND last_updated <= " (.pint v) else qb
    | none => qb
  qb

/-- The finished score query (`search.js` lines 351-352). -/
def buildScoreQuery (q : String) (minPP maxPP minAcc maxAcc minDiff maxDiff : ℚ)
    (mods : List String) (dateStart dateEnd : Option Int)
    (limit offset : Int) : String × List Param :=
  let qb := buildScoreQB q minPP maxPP minAcc maxAcc minDiff maxDiff mods dateStart dateEnd
  (renderChunks (qb.chunks ++
     [.lit " ORDER BY pp DESC LIMIT ", .idx (qb.count + 1),
      .lit " OFFSET ", .idx (qb.count + 2)]),
   qb.params ++ [.pint limit, .pint offset])

/-! ### Test fixtures (concrete rows used by counterexamples and witnesses) -/

def alice : Player := ⟨"Alice", [("weighted_pp", 500), ("country_rank", 5)]⟩

def bobby : Player := ⟨"Bobby", [("weighted_pp", 300), ("country_rank", 20)]⟩

def pA : Player := ⟨"A", [("pp", 500)]⟩

def pB : Player := ⟨"B", [("pp", 800)]⟩

def pC : Player := ⟨"C", [("pp", 650)]⟩

def pX : Player := ⟨"X", []⟩

def pY : Player := ⟨"Y", [("avg_rank", 5)]⟩

def s1ex : Score := ⟨"PlayerOne", 1, 950000, 99, some 300, some 500⟩

def s2ex : Score := ⟨"PlayerTwo", 5, 900000, 97, some 200, some 400⟩

/-! ### Helper lemmas about the insertion sort and the rankings -/

lemma insertBy_mem (le : Player → Player → Bool) (a x : Player) (l : List Player) :
    x ∈ insertBy le a l ↔ x = a ∨ x ∈ l := by
  induction l with
  | nil => simp [insertBy]
  | cons b t ih =>
    by_cases h : le a b = true <;> simp [insertBy, h, ih] <;> tauto

lemma insertBy_length (le : Player → Player → Bool) (a : Player) (l : List Player) :
    (insertBy le a l).length = l.length + 1 := by
  induction l with
  | nil => simp [insertBy]
  | cons b t ih =>
    by_cases h : le a b = true <;> simp [insertBy, h, ih]

lemma sortedBy_length (le : Player → Player → Bool) (l : List Player) :
    (sortedBy le l).length = l.length := by
  induction l with
  | nil => simp [sortedBy]
  | cons a t ih => simp [sortedBy, insertBy_length, ih]

lemma insertBy_pairwise (le : Player → Player → Bool)
    (htot : ∀ a b, le a b = true ∨ le b a = true)
    (htrans : ∀ a b c, le a b = true → le b c = true → le a c = true)
    (a : Player) (l : List Player)
    (hl : l.Pairwise (fun x y => le x y = true)) :
    (insertBy le a l).Pairwise (fun x y => le x y = true) := by
  induction l with
  | nil => simp [insertBy]
  | cons b t ih =>
    rcases List.pairwise_cons.mp hl with ⟨hb, ht⟩
    by_cases hab : le a b = true
    · rw [insertBy, if_pos hab]
      refine List.pairwise_cons.mpr ⟨?_, hl⟩
      intro x hx
      rcases List.mem_cons.mp hx with rfl | hx
      · exact hab
      · exact htrans a b x hab (hb x hx)
    · rw [insertBy, if_neg hab]
      refine List.pairwise_cons.mpr ⟨?_, ih ht⟩
      intro x hx
      rcases (insertBy_mem le a x t).mp hx with hxa | hx
      · subst hxa
        rcases htot x b with h | h
        · exact absurd h hab
        · exact h
      · exact hb x hx

lemma sortedBy_pairwise (le : Player → Player → Bool)
    (htot : ∀ a b, le a b = true ∨ le b a = true)
    (htrans : ∀ a b c, le a b = true → le b c = true → le a c = true)
    (l : List Player) :
    (sortedBy le l).Pairwise (fun x y => le x y = true) := by
  induction l with
  | nil => simp [sortedBy]
  | cons a t ih => exact insertBy_pairwise le htot htrans a (sortedBy le t) ih

lemma multiLe_total (m : String) (a b : Player) :
    multiLe m a b = true ∨ multiLe m b a = true := by
  unfold multiLe
  split_ifs <;> simp only [decide_eq_true_eq] <;> exact le_total _ _

lemma multiLe_trans (m : String) (a b c : Player)
    (h1 : multiLe m a b = true) (h2 : multiLe m b c = true) :
    multiLe m a c = true := by
  unfold multiLe at h1 h2 ⊢
  split_ifs at h1 h2 ⊢ with h
  · simp only [decide_eq_true_eq] at h1 h2 ⊢
    exact le_trans h1 h2
  · simp only [decide_eq_true_eq] at h1 h2 ⊢
    exact le_trans h2 h1

lemma rankingsFor_map_value (m : String) (ps : List Player) :
    (rankingsFor m ps).map RankEntry.value =
      (sortedFor m ps).map (fun p => metricVal p m) := by
  unfold rankingsFor
  rw [List.map_map]
  have h : (RankEntry.value ∘ fun x : ℕ × Player =>
      RankEntry.mk x.2.username (metricVal x.2 m) (x.1 + 1)) =
      (fun p : Player => metricVal p m) ∘ Prod.snd := rfl
  rw [h, ← List.map_map, List.enum_map_snd]

lemma rankingsFor_map_rank (m : String) (ps : List Player) :
    (rankingsFor m ps).map RankEntry.rank = List.range' 1 ps.length := by
  unfold rankingsFor
  rw [List.map_map]
  have h : (RankEntry.rank ∘ fun x : ℕ × Player =>
      RankEntry.mk x.2.username (metricVal x.2 m) (x.1 + 1)) =
      (fun n : ℕ => n + 1) ∘ Prod.fst := rfl
  rw [h, ← List.map_map, List.enum_map_fst, List.range'_eq_map_range]
  rw [show (sortedFor m ps).length = ps.length from sortedBy_length _ _]
  simp [Nat.add_comm]

lemma rankingsFor_sorted (m : String) (hm : m ≠ "avg_rank") (ps : List Player) :
    ((rankingsFor m ps).map RankEntry.value).Pairwise (fun x y => y ≤ x) := by
  rw [rankingsFor_map_value, List.pairwise_map]
  have hp := sortedBy_pairwise (multiLe m) (multiLe_total m) (multiLe_trans m) ps
  exact hp.imp (fun h => by simpa [multiLe, hm, decide_eq_true_eq] using h)

/-! ### Helper lemmas about the ILIKE matcher -/

/-- C6: a multi-player comparison request whose entity count is outside
[2,5] is rejected with the InvalidInput response (status 400) and issues
no database query (query counter 0); requests with exactly 2 or exactly 5
entities pass the bound check and are never answered with that rejection. -/
theorem multipleBoundsCheck (db : List Player) (usernames metrics : List String) :
    ((usernames.length < 2 ∨ 5 < usernames.length) →
      multipleHandler db usernames metrics =
        (.err 400 "Please provide between 2 and 5 usernames", 0)) ∧
    ((usernames.length = 2 ∨ usernames.length = 5) →
      (multipleHandler db usernames metrics).1 ≠
        .err 400 "Please provide between 2 and 5 usernames") := by
  constructor
  · intro h
    simp only [multipleHandler, if_pos h]
  · intro h
    have hn : ¬(usernames.length < 2 ∨ 5 < usernames.length) := by
      rcases h with h | h <;> omega
    simp only [multipleHandler, if_neg hn]
    split
    · intro hcon
      simp only [Prod.fst] at hcon
      exact absurd (Resp.err.injEq _ _ _ _ ▸ hcon) (by simp)
    · intro hcon
      simp only [Prod.fst] at hcon
      exact Resp.noConfusion hcon

/-- C6 witness: a 1-name request is rejected with status 400 and zero
queries; a 2-name request is not rejected as InvalidInput. -/
theorem multipleBoundsCheck_witness :
    (multipleHandler [alice, bobby] ["Al"] [] =
      (.err 400 "Please provide between 2 and 5 usernames", 0)) ∧
    ((multipleHandler [alice, bobby] ["Al", "Bo"] []).1 ≠
      .err 400 "Please provide between 2 and 5 usernames") :=
  ⟨(multipleBoundsCheck [alice, bobby] ["Al"] []).1 (by decide),
   (multipleBoundsCheck [alice, bobby] ["Al", "Bo"] []).2 (by decide)⟩

/-- C9: within the accepted bound, any requested username that resolves to
no row is silently dropped — when at least 2 usernames resolve, the
response is a success built only from the found players (in request
order), and only when fewer than 2 resolve does the handler return the
404 not-found outcome. -/
theorem unresolvedUsernamesDropped (db : List Player) (usernames metrics : List String)
    (hlen : ¬(usernames.length < 2 ∨ 5 < usernames.length)) :
    (2 ≤ (usernames.filterMap (resolvePlayer db)).length →
      (multipleHandler db usernames metrics).1 =
        .ok (mkMultiData (usernames.filterMap (resolvePlayer db)) metrics)) ∧
    ((usernames.filterMap (resolvePlayer db)).length < 2 →
      (multipleHandler db usernames metrics).1 =
        .err 404 "At least 2 valid players required") := by
  constructor
  · intro h
    simp only [multipleHandler, if_neg hlen]
    rw [if_neg (by omega)]
  · intro h
    simp only [multipleHandler, if_neg hlen]
    rw [if_pos h]

/-- C9 witness: of the three requested names, "zzz" resolves to no
player; the handler still answers successfully from the two found
players. -/
theorem unresolvedUsernamesDropped_witness :
    (multipleHandler [alice, bobby] ["Ali", "Bob", "zzz"] ["weighted_pp"]).1 =
      .ok (mkMultiData ((["Ali", "Bob", "zzz"] : List String).filterMap
        (resolvePlayer [alice, bobby])) ["weighted_pp"]) :=
  (unresolvedUsernamesDropped [alice, bobby] ["Ali", "Bob", "zzz"] ["weighted_pp"]
    (by decide)).1 (by decide)

/-- C7: for a higher-is-better metric (any metric other than `avg_rank`)
the multi-player comparison ranks by descending raw value with ranks
1..n, and on the claim's scenario — A with pp 500, B with pp 800, C with
pp 650 — yields the order B(1, 800), C(2, 650), A(3, 500) with best 800,
worst 500 and average 650, all computed over the raw values. -/
theorem multipleRankingCorrectness :
    (∀ (ps : List Player) (m : String), m ≠ "avg_rank" →
      ((rankingsFor m ps).map RankEntry.value).Pairwise (fun x y => y ≤ x)) ∧
    (∀ (ps : List Player) (m : String),
      (rankingsFor m ps).map RankEntry.rank = List.range' 1 ps.length) ∧
    (rankingsFor "pp" [pA, pB, pC] =
      [⟨"B", 800, 1⟩, ⟨"C", 650, 2⟩, ⟨"A", 500, 3⟩]) ∧
    (metricStatsFor "pp" [pA, pB, pC] = ⟨800, 500, 650⟩) := by
  refine ⟨fun ps m hm => rankingsFor_sorted m hm ps,
    fun ps m => rankingsFor_map_rank m ps, by decide, ?_⟩
  have hsort : sortedFor "pp" [pA, pB, pC] = [pB, pC, pA] := by decide
  simp only [metricStatsFor, hsort, MetricStats.mk.injEq]
  refine ⟨by decide, by decide, ?_⟩
  have hv : [pA, pB, pC].map (fun p => metricVal p "pp") = [500, 800, 650] := by decide
  rw [hv]
  simp only [List.sum_cons, List.sum_nil, List.length_cons, List.length_nil]
  norm_num

/-- C7 witness: the sortedness statement applied to the scenario metric
"pp", which is not the `avg_rank` special case. -/
theorem multipleRankingCorrectness_witness :
    ((rankingsFor "pp" [pA, pB, pC]).map RankEntry.value).Pairwise
      (fun x y => y ≤ x) :=
  multipleRankingCorrectness.1 [pA, pB, pC] "pp" (by decide)

/-- C3 counterexample: in the multi-player rankings for the
lower-is-better metric `avg_rank`, a player with an absent value is
substituted with 0 — not a worst-possible sentinel — and therefore ranks
first (best), ahead of a player whose actual average rank is 5. -/
theorem avgRankMissingRanksBest :
    pX.metric "avg_rank" = none ∧
    rankingsFor "avg_rank" [pX, pY] =
      [⟨"X", 0, 1⟩, ⟨"Y", 5, 2⟩] ∧
    (metricStatsFor "avg_rank" [pX, pY]).best = 0 := by
  refine ⟨by decide, by decide, ?_⟩
  have hsort : sortedFor "avg_rank" [pX, pY] = [pX, pY] := by decide
  simp only [metricStatsFor, hsort]
  decide

/-- C3 amended: the two-player comparison substitutes the sentinel 999999
for a missing `country_rank`, but the multi-player rankings substitute 0
for a missing value of every metric, `avg_rank` included. -/
theorem missingValueSubstitutions (a b : Player) (m : String) (ps : List Player) :
    ((statComparison a b).countryRank.p1 = jsOr (a.metric "country_rank") 999999) ∧
    (a.metric "country_rank" = none → (statComparison a b).countryRank.p1 = 999999) ∧
    ((rankingsFor m ps).map RankEntry.value =
      (sortedFor m ps).map (fun p => jsOr (p.metric m) 0)) ∧
    (∀ p : Player, p.metric m = none → metricVal p m = 0) := by
  refine ⟨rfl, ?_, rankingsFor_map_value m ps, ?_⟩
  · intro h
    simp [statComparison, countryRankEntry, h, jsOr]
  · intro p h
    simp [metricVal, h, jsOr]

/-- C3 witness: the sentinel conjunct applied to a player with no
`country_rank` column. -/
theorem missingValueSubstitutions_witness :
    (statComparison pX pY).countryRank.p1 = 999999 :=
  (missingValueSubstitutions pX pY "avg_rank" []).2.1 (by decide)

/-- C2 counterexample: on the per-beatmap comparison the rank differential
is NOT flipped — player1 holds the better (lower) rank 1 against rank 5,
the route even names player1 the winner, yet the differential is -4,
negative, contradicting the positive-means-player1-better convention. -/
theorem beatmapRankDiffNotFlipped :
    s1ex.rank < s2ex.rank ∧
    beatmapWinner s1ex s2ex "PlayerOne" "PlayerTwo" = "PlayerOne" ∧
    (beatmapDiffs s1ex s2ex).rank = -4 ∧
    (beatmapDiffs s1ex s2ex).rank < 0 := by
  refine ⟨by decide, by decide, ?_, ?_⟩
  · show (1 : ℚ) - 5 = -4
    norm_num
  · show (1 : ℚ) - 5 < 0
    norm_num

/-- C2 amended: the two-player `countryRank` differential is flipped
(player2 - player1), so 5 versus 20 gives +15 and positive means player1
is better; the per-beatmap rank differential is the unflipped
`score1.rank - score2.rank`, which is negative — not positive — when
player1 is better, while the separate `winner` field does name player1. -/
theorem differentialSignConventions (a b : Player) (s1 s2 : Score) (u1 u2 : String) :
    ((statComparison a b).countryRank.diff =
      jsOr (b.metric "country_rank") 999999 - jsOr (a.metric "country_rank") 999999) ∧
    (a.metric "country_rank" = some 5 → b.metric "country_rank" = some 20 →
      (statComparison a b).countryRank.diff = 15) ∧
    ((beatmapDiffs s1 s2).rank = s1.rank - s2.rank) ∧
    (s1.rank < s2.rank →
      (beatmapDiffs s1 s2).rank < 0 ∧ beatmapWinner s1 s2 u1 u2 = u1) := by
  refine ⟨rfl, ?_, rfl, ?_⟩
  · intro h1 h2
    simp only [statComparison, countryRankEntry, h1, h2, jsOr]
    norm_num
  · intro h
    constructor
    · show s1.rank - s2.rank < 0
      linarith
    · simp [beatmapWinner, h]

/-- C2 witness: the countryRank conjunct at ranks 5 and 20 (+15 means
player1 better) and the beatmap conjunct at ranks 1 and 5. -/
theorem differentialSignConventions_witness :
    ((statComparison alice bobby).countryRank.diff = 15) ∧
    ((beatmapDiffs s1ex s2ex).rank < 0 ∧
      beatmapWinner s1ex s2ex "PlayerOne" "PlayerTwo" = "PlayerOne") :=
  ⟨(differentialSignConventions alice bobby s1ex s2ex "PlayerOne" "PlayerTwo").2.1
      (by decide) (by decide),
   (differentialSignConventions alice bobby s1ex s2ex "PlayerOne" "PlayerTwo").2.2.2
      (by decide)⟩

/-- C1 counterexample: when the cache `get` call raises, the compare
handler answers 500 Internal server error, not the freshly computed
success it produces on a plain cache miss over the same store. -/
theorem cacheRaiseFailsRequest :
    comparePlayers [alice, bobby] [] .raise false "Ali" "Bob" =
      .err 500 "Internal server error" ∧
    comparePlayers [alice, bobby] [] .miss false "Ali" "Bob" =
      .ok (freshCompareData [] "Ali" "Bob" alice bobby) ∧
    (Resp.err 500 "Internal server error" ≠
      Resp.ok (freshCompareData [] "Ali" "Bob" alice bobby)) :=
  ⟨rfl, rfl, fun h => Resp.noConfusion h⟩

/-- C1 amended: a falsy cache `get` result (miss) falls back to the fresh
computation and succeeds, and a cached value is served as-is; but a raise
from the cache `get`, or from the `set` performed after the fresh
computation, propagates to the route's single catch-all and the request
fails with 500 instead of returning the fresh data. -/
theorem cacheMissFallsBack (db : List Player) (rows : List SkillRow)
    (u1 u2 : String) (p1 p2 : Player) (d : CompareData) :
    (comparePlayers db rows (.hit d) false u1 u2 = .ok d) ∧
    (comparePlayers db rows .raise false u1 u2 =
      .err 500 "Internal server error") ∧
    (resolvePlayer db u1 = some p1 → resolvePlayer db u2 = some p2 →
      comparePlayers db rows .miss false u1 u2 =
        .ok (freshCompareData rows u1 u2 p1 p2) ∧
      comparePlayers db rows .miss true u1 u2 =
        .err 500 "Internal server error") := by
  refine ⟨rfl, rfl, ?_⟩
  intro h1 h2
  unfold comparePlayers
  rw [h1, h2]
  exact ⟨rfl, rfl⟩

/-- C1 witness: with both usernames resolving, a cache miss returns the
fresh data and a raising `set` call turns the same request into a 500. -/
theorem cacheMissFallsBack_witness :
    comparePlayers [alice, bobby] [] .miss false "Ali" "Bob" =
      .ok (freshCompareData [] "Ali" "Bob" alice bobby) ∧
    comparePlayers [alice, bobby] [] .miss true "Ali" "Bob" =
      .err 500 "Internal server error" :=
  (cacheMissFallsBack [alice, bobby] [] "Ali" "Bob" alice bobby
    (freshCompareData [] "Ali" "Bob" alice bobby)).2.2 (by decide) (by decide)

set_option maxRecDepth 40000 in
/-- C4: evaluating the advanced player query at a request with one present
filter (the search term "foo") and default pagination shows the bug: the
emitted text embeds the counter values as bare SQL numerals — the `$` of
the intended `$N` placeholder is consumed by the JS template-literal
interpolation `${++paramCount}` — so the text contains no `$` at all and
references no parameter, while three values are nevertheless bound.  The
counting part of the claim does hold: every input yields exactly
`playerFilterCount` conditional fragments' parameters plus the two
pagination parameters. -/
theorem advancedQueryMissingPlaceholders :
    (buildPlayerQuery "foo" 0 10000 0 1 20 0 =
      (playerBase ++ " AND username ILIKE 1 ORDER BY weighted_pp DESC LIMIT 2 OFFSET 3",
       [.pstr "%foo%", .pint 20, .pint 0])) ∧
    (∀ c ∈ (buildPlayerQuery "foo" 0 10000 0 1 20 0).1.data, c ≠ Char.ofNat 36) ∧
    (∀ (q : String) (minPP maxPP minAcc maxAcc : ℚ) (limit offset : Int),
      (buildPlayerQuery q minPP maxPP minAcc maxAcc limit offset).2.length =
        playerFilterCount q minPP maxPP minAcc maxAcc + 2) := by
  refine ⟨by decide, by decide, ?_⟩
  intro q minPP maxPP minAcc maxAcc limit offset
  simp only [buildPlayerQuery, buildPlayerQB, QB.add, playerFilterCount]
  split_ifs <;> simp

/-- C8 counterexample: the pagination parameters are bound exactly as
supplied — an offset of -5 is not rejected as negative and a limit of
100000 is not clamped to any configured maximum. -/
theorem paginationUnclamped :
    (buildPlayerQuery "" 0 10000 0 1 100000 (-5)).2 =
      [.pint 100000, .pint (-5)] ∧
    ((-5 : Int) < 0) ∧ ((100 : Int) < 100000) := by
  decide

/-- C8 amended: in both advanced queries, `parseInt(limit)` and
`parseInt(offset)` are always the last two bound parameters, appended
after all conditional filter parameters; no non-negativity validation and
no maximum clamp is applied to either. -/
theorem paginationLastTwoParams (q : String) (minPP maxPP minAcc maxAcc : ℚ)
    (minDiff maxDiff : ℚ) (mods : List String) (dateStart dateEnd : Option Int)
    (limit offset : Int) :
    ((buildPlayerQuery q minPP maxPP minAcc maxAcc limit offset).2 =
      (buildPlayerQB q minPP maxPP minAcc maxAcc).params ++
        [.pint limit, .pint offset]) ∧
    ((buildScoreQuery q minPP maxPP minAcc maxAcc minDiff maxDiff mods
        dateStart dateEnd limit offset).2 =
      (buildScoreQB q minPP maxPP minAcc maxAcc minDiff maxDiff mods
        dateStart dateEnd).params ++ [.pint limit, .pint offset]) :=
  ⟨rfl, rfl⟩

